import Mathlib

/-!
Shallow embedding of the SuperTetris python AI subsystem
(`src/python_ai/src/constants.py`, `src/python_ai/src/models.py`,
`src/python_ai/src/ai_system.py`).

Conventions of the embedding:
* python floats become rationals (`ℚ`); every float literal appearing in the
  source is exact in decimal, so nothing is lost;
* python exceptions become `Except AIError`; operations of `AISystem` that
  mutate `self` return the post-state alongside the result, and every raise
  point in the source precedes any mutation, so a raising call returns the
  pre-state unchanged, exactly as the python object is left;
* python dicts (`self.players`) become association lists with dict
  update/lookup semantics (`dictSet` / `dictGet`); insertion order and
  replace-in-place are preserved;
* `os.path.exists` becomes membership of the path in an explicit list of
  existing files, passed to `load_player` as the `fs` argument;
* the torch `nn.Module` objects are opaque parametric functions; the
  embedding records their architecture and summarises the learned
  parameters by an abstract value (`TorchModel.params_version`) that only
  the trainer's gradient loop replaces.  The numeric content of a gradient
  step is floating-point and out of scope; which fields of which player the
  training loop writes is modelled exactly.
-/

namespace SuperTetris

/-- constants.py line 24: `EPSILON_START = 1.0`. -/
def EPSILON_START : ℚ := 1

/-- constants.py line 25: `EPSILON_END = 0.1`. -/
def EPSILON_END : ℚ := 0.1

/-- constants.py line 26: `EPSILON_DECAY = 0.995`. -/
def EPSILON_DECAY : ℚ := 0.995

/-- constants.py line 27: `MEMORY_CAPACITY = 10000`. -/
def MEMORY_CAPACITY : Nat := 10000

/-- constants.py line 53: `MODEL_SAVE_PATH = "models/"`. -/
def MODEL_SAVE_PATH : String := "models/"

/-- models.py `GameState` dataclass: the observed snapshot handed to an
agent.  The `Dict[str, Any]` payloads are modelled as string association
lists; no operation of the subsystem ever inspects them. -/
structure GameState where
  board : List (List Nat)
  current_block : List (String × String)
  next_blocks : List (List (String × String))
  player_stats : List (String × String)
  opponent_stats : List (String × String)
  available_spells : List (List (String × String))
  active_spells : List (List (String × String))
  game_mode : String
  difficulty_level : Int
deriving DecidableEq, Repr

/-- models.py `Action` dataclass. -/
structure Action where
  action_type : Int
  parameters : List (String × String)
deriving DecidableEq, Repr

/-- A recorded (state, action, reward, next_state) experience tuple, the
element type of a learning player's `memory` list. -/
abbrev Transition := GameState × Action × ℚ × GameState

/-- An entry of `AISystem.training_data`: the code reads `d[0]` (state
features) into a float tensor, `d[1]` (action code) into a long tensor and
`d[2]` (reward) into a float tensor. -/
abbrev TrainingTuple := List ℚ × Int × ℚ

/-- The torch model built by `_create_model` in models.py.  The layer sizes
are the ones of the `nn.Sequential`; `softmax_output` distinguishes the
neural-net variant's closing `nn.Softmax(dim=1)` from the RL variant's raw
head; `params_version` stands for the learned parameter state, which only
the training loop of `AISystem.train_player` replaces. -/
structure TorchModel where
  layer_sizes : List Nat
  softmax_output : Bool
  params_version : Nat
deriving DecidableEq, Repr

/-- models.py lines 115-139, `NeuralNetAIPlayer._create_model`: the
sequential net 200→256→128→64→7 ending in a softmax. -/
def TorchModel.createSoftmaxNet : TorchModel :=
  { layer_sizes := [200, 256, 128, 64, 7], softmax_output := true, params_version := 0 }

/-- models.py lines 174-197, `ReinforcementLearningAIPlayer._create_model`:
the same sequential net without the softmax head. -/
def TorchModel.createPlainNet : TorchModel :=
  { layer_sizes := [200, 256, 128, 64, 7], softmax_output := 0 = 1, params_version := 0 }

/-- ai_system.py lines 136-160: the effect on `player.model` of the
epoch/batch gradient loop (`optimizer.step()` on `player.model.parameters()`).
The floating-point content of a gradient step is abstracted into a bump of
the abstract parameter state; the loop reads only `self.training_data`,
`epochs` and `batch_size` and writes only the online model. -/
def TorchModel.train (m : TorchModel) (data : List TrainingTuple) (epochs batch_size : Nat) : TorchModel :=
  { m with params_version := m.params_version + epochs + data.length + batch_size }

/-- models.py lines 60-97, `HeuristicAIPlayer._get_weights_for_difficulty`
(the leading underscore of the python name is dropped). -/
def get_weights_for_difficulty (difficulty : Int) : List (String × ℚ) :=
  if difficulty = 1 then
    [("holes", 0.3), ("bumpiness", 0.2), ("height", 0.3),
     ("lines_cleared", 0.8), ("tower_stability", 0.4), ("risk_taking", 0.2)]
  else if difficulty = 2 then
    [("holes", 0.5), ("bumpiness", 0.4), ("height", 0.5),
     ("lines_cleared", 1.0), ("tower_stability", 0.6), ("risk_taking", 0.4)]
  else if difficulty = 3 then
    [("holes", 0.7), ("bumpiness", 0.6), ("height", 0.7),
     ("lines_cleared", 1.2), ("tower_stability", 0.8), ("risk_taking", 0.6)]
  else
    [("holes", 0.9), ("bumpiness", 0.8), ("height", 0.9),
     ("lines_cleared", 1.5), ("tower_stability", 1.0), ("risk_taking", 0.8)]

/-- models.py lines 141-150, `NeuralNetAIPlayer._get_epsilon_for_difficulty`
(leading underscore dropped). -/
def get_epsilon_for_difficulty (difficulty : Int) : ℚ :=
  if difficulty = 1 then 0.5
  else if difficulty = 2 then 0.3
  else if difficulty = 3 then 0.1
  else 0.05

/-- models.py lines 50-58, `HeuristicAIPlayer`.  `name` is `Option String`
because `AISystem.create_player` forwards its `Optional[str]` name argument
verbatim into the constructor. -/
structure HeuristicAIPlayer where
  difficulty : Int
  name : Option String
  decision_weights : List (String × ℚ)
  last_decision_time : ℚ
deriving DecidableEq, Repr

/-- models.py lines 56-58, `HeuristicAIPlayer.__init__`. -/
def HeuristicAIPlayer.create (difficulty : Int) (name : Option String) : HeuristicAIPlayer :=
  { difficulty := difficulty
    name := name
    decision_weights := get_weights_for_difficulty difficulty
    last_decision_time := 0 }

/-- models.py lines 99-113, `NeuralNetAIPlayer`. -/
structure NeuralNetAIPlayer where
  difficulty : Int
  name : Option String
  model : TorchModel
  epsilon : ℚ
  memory : List Transition
  last_state : Option GameState
  last_action : Option Action
  last_reward : ℚ
deriving DecidableEq, Repr

/-- models.py lines 109-113, `NeuralNetAIPlayer.__init__`. -/
def NeuralNetAIPlayer.create (difficulty : Int) (name : Option String) : NeuralNetAIPlayer :=
  { difficulty := difficulty
    name := name
    model := TorchModel.createSoftmaxNet
    epsilon := get_epsilon_for_difficulty difficulty
    memory := []
    last_state := none
    last_action := none
    last_reward := 0 }

/-- models.py lines 152-172, `ReinforcementLearningAIPlayer`. -/
structure ReinforcementLearningAIPlayer where
  difficulty : Int
  name : Option String
  model : TorchModel
  target_model : TorchModel
  epsilon : ℚ
  epsilon_decay : ℚ
  memory : List Transition
  last_state : Option GameState
  last_action : Option Action
  last_reward : ℚ
  steps : Nat
deriving DecidableEq, Repr

/-- models.py lines 165-172, `ReinforcementLearningAIPlayer.__init__`:
`epsilon = 1.0`, `epsilon_decay = 0.995` (hard-coded literals; the
`EPSILON_*` constants of constants.py are never read). -/
def ReinforcementLearningAIPlayer.create (difficulty : Int) (name : Option String) : ReinforcementLearningAIPlayer :=
  { difficulty := difficulty
    name := name
    model := TorchModel.createPlainNet
    target_model := TorchModel.createPlainNet
    epsilon := 1
    epsilon_decay := 0.995
    memory := []
    last_state := none
    last_action := none
    last_reward := 0
    steps := 0 }

/-- The closed set of player variants managed by the system (models.py
defines exactly these three subclasses of `AIPlayer`). -/
inductive AIPlayer where
  | heuristic : HeuristicAIPlayer → AIPlayer
  | neural_net : NeuralNetAIPlayer → AIPlayer
  | rl : ReinforcementLearningAIPlayer → AIPlayer
deriving DecidableEq, Repr

/-- The python error conditions the subsystem can raise, one constructor
per distinct raise site / message. -/
inductive AIError where
  /-- `ValueError(f"Player not found: ...")`, ai_system.py lines 69, 76, 83, 128, 166. -/
  | notFound : String → AIError
  /-- `ValueError(f"Unknown player type: ...")`, ai_system.py line 51. -/
  | unknownPlayerType : String → AIError
  /-- `NotImplementedError` from the `AIPlayer` base methods, models.py lines 34-48. -/
  | notImplemented : AIError
  /-- `FileNotFoundError`, ai_system.py line 96. -/
  | fileNotFound : String → AIError
  /-- `ValueError(f"Could not determine player type from path: ...")`, ai_system.py line 106. -/
  | unknownPathType : String → AIError
  /-- `ValueError(f"Player type ... does not support training")`, ai_system.py line 131. -/
  | unsupportedTraining : AIError
  /-- `ValueError("No training data available")`, ai_system.py line 134. -/
  | noTrainingData : AIError
deriving DecidableEq, Repr

/-- models.py lines 34-36: `AIPlayer.get_action` raises
`NotImplementedError`.  None of the three subclasses overrides it, so every
variant inherits the raising base implementation. -/
def AIPlayer.get_action (_player : AIPlayer) (_state : GameState) : Except AIError Action :=
  .error .notImplemented

/-- models.py lines 38-40: `AIPlayer.update` raises `NotImplementedError`;
no subclass overrides it.  On success it would return the updated player. -/
def AIPlayer.update (_player : AIPlayer) (_state : GameState) (_action : Action)
    (_reward : ℚ) (_next_state : GameState) : Except AIError AIPlayer :=
  .error .notImplemented

/-- models.py lines 42-44: `AIPlayer.save` raises `NotImplementedError`;
no subclass overrides it. -/
def AIPlayer.save (_player : AIPlayer) (_path : String) : Except AIError Unit :=
  .error .notImplemented

/-- models.py lines 46-48: `AIPlayer.load` raises `NotImplementedError`;
no subclass overrides it.  On success it would return the loaded player. -/
def AIPlayer.load (_player : AIPlayer) (_path : String) : Except AIError AIPlayer :=
  .error .notImplemented

/-- The `isinstance(player, (NeuralNetAIPlayer, ReinforcementLearningAIPlayer))`
test of ai_system.py line 130. -/
def AIPlayer.isTrainable : AIPlayer → Bool
  | .heuristic _ => false
  | .neural_net _ => true
  | .rl _ => true

/-- The in-place mutation of `player.model` performed by the training loop
of ai_system.py lines 146-160: only the online model field of the player is
replaced; on a heuristic player (unreachable behind the `isTrainable`
guard) nothing changes. -/
def AIPlayer.withTrainedModel (p : AIPlayer) (data : List TrainingTuple) (epochs batch_size : Nat) : AIPlayer :=
  match p with
  | .heuristic q => .heuristic q
  | .neural_net q => .neural_net { q with model := q.model.train data epochs batch_size }
  | .rl q => .rl { q with model := q.model.train data epochs batch_size }

/-- Projection of the exploration rate, defined for the two learning
variants. -/
def AIPlayer.epsilonOf : AIPlayer → Option ℚ
  | .heuristic _ => none
  | .neural_net q => some q.epsilon
  | .rl q => some q.epsilon

/-- Projection of the exploration decay factor (RL variant only). -/
def AIPlayer.epsilonDecayOf : AIPlayer → Option ℚ
  | .rl q => some q.epsilon_decay
  | _ => none

/-- Projection of the step counter (RL variant only). -/
def AIPlayer.stepsOf : AIPlayer → Option Nat
  | .rl q => some q.steps
  | _ => none

/-- Projection of the replay memory of the learning variants. -/
def AIPlayer.memoryOf : AIPlayer → Option (List Transition)
  | .heuristic _ => none
  | .neural_net q => some q.memory
  | .rl q => some q.memory

/-- Projection of the target estimator (RL variant only). -/
def AIPlayer.targetModelOf : AIPlayer → Option TorchModel
  | .rl q => some q.target_model
  | _ => none

/-- python `dict` lookup on an association list with unique keys. -/
def dictGet {K V : Type} [DecidableEq K] : List (K × V) → K → Option V
  | [], _ => none
  | (k, v) :: rest, key => if k = key then some v else dictGet rest key

/-- python `d[key] = value`: replace in place when the key is present
(keeping its position), append otherwise. -/
def dictSet {K V : Type} [DecidableEq K] : List (K × V) → K → V → List (K × V)
  | [], key, value => [(key, value)]
  | (k, v) :: rest, key, value =>
      if k = key then (k, value) :: rest else (k, v) :: dictSet rest key value

/-- ai_system.py `AISystem`: the registry state.  The directory-creation
side effect of `__init__` and the optional JSON config are irrelevant to
every operation modelled here and are omitted. -/
structure AISystem where
  players : List (Option String × AIPlayer)
  training_data : List TrainingTuple
deriving DecidableEq, Repr

/-- A fresh `AISystem()`: empty player map and no accumulated training
data (ai_system.py lines 27-31). -/
def AISystem.init : AISystem :=
  { players := [], training_data := [] }

/-- ai_system.py lines 56-58, `AISystem.get_player`. -/
def AISystem.get_player (sys : AISystem) (name : String) : Option AIPlayer :=
  dictGet sys.players (some name)

/-- ai_system.py lines 42-54, `AISystem.create_player`: dispatch on the
kind string, store the new player under its (possibly absent) name.  The
unknown-kind raise happens before the map is touched. -/
def AISystem.create_player (sys : AISystem) (player_type : String) (difficulty : Int)
    (name : Option String) : Except AIError AIPlayer × AISystem :=
  if player_type = "heuristic" then
    let player := AIPlayer.heuristic (HeuristicAIPlayer.create difficulty name)
    (.ok player, { sys with players := dictSet sys.players name player })
  else if player_type = "neural_net" then
    let player := AIPlayer.neural_net (NeuralNetAIPlayer.create difficulty name)
    (.ok player, { sys with players := dictSet sys.players name player })
  else if player_type = "rl" then
    let player := AIPlayer.rl (ReinforcementLearningAIPlayer.create difficulty name)
    (.ok player, { sys with players := dictSet sys.players name player })
  else
    (.error (.unknownPlayerType player_type), sys)

/-- ai_system.py lines 65-70, `AISystem.get_action`: not-found check, then
delegation to the player (whose `get_action` is the raising base method). -/
def AISystem.get_action (sys : AISystem) (player_name : String) (state : GameState) :
    Except AIError Action :=
  match sys.get_player player_name with
  | none => .error (.notFound player_name)
  | some player => player.get_action state

/-- ai_system.py lines 72-77, `AISystem.update`: not-found check, then
delegation.  Returns the post-state of the registry; every raise precedes
any mutation, so the pre-state is returned on error. -/
def AISystem.update (sys : AISystem) (player_name : String) (state : GameState)
    (action : Action) (reward : ℚ) (next_state : GameState) :
    Except AIError Unit × AISystem :=
  match sys.get_player player_name with
  | none => (.error (.notFound player_name), sys)
  | some player =>
    match player.update state action reward next_state with
    | .error e => (.error e, sys)
    | .ok updated => (.ok (), { sys with players := dictSet sys.players (some player_name) updated })

/-- The default-path resolution shared by `save_player` (ai_system.py
lines 85-86) and `load_player` (lines 92-93):
`os.path.join(MODEL_SAVE_PATH, f"{player_name}.pt")` when no explicit path
is given. -/
def resolvePath (player_name : String) (path? : Option String) : String :=
  match path? with
  | some p => p
  | none => MODEL_SAVE_PATH ++ player_name ++ ".pt"

/-- ai_system.py lines 79-88, `AISystem.save_player`: not-found check,
default path resolution, delegation to the raising base `save`. -/
def AISystem.save_player (sys : AISystem) (player_name : String) (path? : Option String) :
    Except AIError Unit :=
  match sys.get_player player_name with
  | none => .error (.notFound player_name)
  | some player => player.save (resolvePath player_name path?)

/-- Substring containment over the underlying character list: the python
`sub in path` test. -/
def charsContain (sub : List Char) : List Char → Bool
  | [] => sub.isEmpty
  | c :: rest => sub.isPrefixOf (c :: rest) || charsContain sub rest

/-- python `sub in s` for strings. -/
def strContains (s sub : String) : Bool :=
  charsContain sub.toList s.toList

/-- ai_system.py lines 98-106: recover the player variant from the resolved
file path, testing the substrings "heuristic", "neural_net", "rl" in that
order; a fresh difficulty-1 player of that variant is constructed to load
into. -/
def playerFromPath (path : String) (player_name : String) : Except AIError AIPlayer :=
  match strContains path "heuristic" with
  | true => .ok (.heuristic (HeuristicAIPlayer.create 1 (some player_name)))
  | false =>
    match strContains path "neural_net" with
    | true => .ok (.neural_net (NeuralNetAIPlayer.create 1 (some player_name)))
    | false =>
      match strContains path "rl" with
      | true => .ok (.rl (ReinforcementLearningAIPlayer.create 1 (some player_name)))
      | false => .error (.unknownPathType path)

/-- ai_system.py lines 90-109, `AISystem.load_player`: default path
resolution, `os.path.exists` check against the file list `fs`, variant
dispatch from the path, then delegation to the raising base `load`; on
success the loaded player would be stored under `player_name`. -/
def AISystem.load_player (fs : List String) (sys : AISystem) (player_name : String)
    (path? : Option String) : Except AIError Unit × AISystem :=
  match fs.contains (resolvePath player_name path?) with
  | false => (.error (.fileNotFound (resolvePath player_name path?)), sys)
  | true =>
    match playerFromPath (resolvePath player_name path?) player_name with
    | .error e => (.error e, sys)
    | .ok player =>
      match player.load (resolvePath player_name path?) with
      | .error e => (.error e, sys)
      | .ok loaded => (.ok (), { sys with players := dictSet sys.players (some player_name) loaded })

/-- ai_system.py lines 124-160, `AISystem.train_player`: not-found check,
variant check, empty-training-data check, then the epoch/batch gradient
loop, which rewrites only the online model of the selected player. -/
def AISystem.train_player (sys : AISystem) (player_name : String) (epochs batch_size : Nat) :
    Except AIError Unit × AISystem :=
  match sys.get_player player_name with
  | none => (.error (.notFound player_name), sys)
  | some player =>
    match player.isTrainable with
    | false => (.error .unsupportedTraining, sys)
    | true =>
      match sys.training_data.isEmpty with
      | true => (.error .noTrainingData, sys)
      | false =>
        let trained := player.withTrainedModel sys.training_data epochs batch_size
        (.ok (), { sys with players := dictSet sys.players (some player_name) trained })

/-- ai_system.py lines 168-172: the evaluation loop — for each labelled
test entry, ask the player for an action and accumulate the reward when the
predicted action type matches the label's. -/
def evalLoop (player : AIPlayer) (acc : ℚ) :
    List (GameState × Action × ℚ) → Except AIError ℚ
  | [] => .ok acc
  | (state, action, reward) :: rest =>
    match player.get_action state with
    | .error e => .error e
    | .ok predicted =>
      evalLoop player (if predicted.action_type = action.action_type then acc + reward else acc) rest

/-- ai_system.py lines 162-174, `AISystem.evaluate_player`: not-found
check, the accumulation loop, then
`total_reward / len(test_data) if test_data else 0.0`. -/
def AISystem.evaluate_player (sys : AISystem) (player_name : String)
    (test_data : List (GameState × Action × ℚ)) : Except AIError ℚ :=
  match sys.get_player player_name with
  | none => .error (.notFound player_name)
  | some player =>
    match evalLoop player 0 test_data with
    | .error e => .error e
    | .ok total =>
      match test_data.isEmpty with
      | true => .ok 0
      | false => .ok (total / (test_data.length : ℚ))

/-! Concrete inputs used by the witness theorems. -/

/-- A minimal syntactically valid game state. -/
def demoState : GameState :=
  { board := [[0]], current_block := [], next_blocks := [], player_stats := [],
    opponent_stats := [], available_spells := [], active_spells := [],
    game_mode := "RACE", difficulty_level := 1 }

/-- A minimal action (move-left). -/
def demoAction : Action := { action_type := 1, parameters := [] }

/-- A registry holding one heuristic player named "h". -/
def sysH : AISystem := (AISystem.init.create_player "heuristic" 1 (some "h")).2

/-- A registry holding a heuristic player "h", a neural-net player "n" and
an RL player "r"; no accumulated training data. -/
def sysAll : AISystem :=
  (((sysH.create_player "neural_net" 1 (some "n")).2).create_player "rl" 2 (some "r")).2

/-- `sysAll` with one accumulated training tuple. -/
def sysTrain : AISystem := { sysAll with training_data := [([1], 1, 1)] }

/-- A one-file filesystem for the load counterexample. -/
def fs10 : List String := ["models/rl_heuristic.pt"]

/-- A two-file filesystem: the default path of agent "agentx" plus a blob
whose name mentions both "rl" and "heuristic". -/
def fsX : List String := ["models/agentx.pt", "models/rl_heuristic.pt"]

/-! Helper lemmas about the dict embedding. -/

/-- Looking up the key just written returns the written value. -/
theorem dictGet_dictSet_self {K V : Type} [DecidableEq K] (d : List (K × V)) (k : K) (v : V) :
    dictGet (dictSet d k v) k = some v := by
  induction d with
  | nil => simp [dictSet, dictGet]
  | cons head tail ih =>
    obtain ⟨k0, v0⟩ := head
    by_cases h : k0 = k
    · simp [dictSet, dictGet, h]
    · simp [dictSet, dictGet, h, ih]

/-- Writing one key leaves every other key's binding unchanged. -/
theorem dictGet_dictSet_ne {K V : Type} [DecidableEq K] (d : List (K × V)) (k k' : K) (v : V)
    (h : k' ≠ k) : dictGet (dictSet d k v) k' = dictGet d k' := by
  induction d with
  | nil => simp [dictSet, dictGet, Ne.symm h]
  | cons head tail ih =>
    obtain ⟨k0, v0⟩ := head
    by_cases h0 : k0 = k
    · subst h0
      simp [dictSet, dictGet, Ne.symm h]
    · simp [dictSet, dictGet, h0, ih]

/-! Claim theorems. -/

/-- C1: the claim says `AISystem.update` completes without raising for every
registered agent of any variant (and is a no-op on a heuristic agent's
state).  The code does the opposite: `AIPlayer.update` raises
`NotImplementedError` and no subclass overrides it, so for every registered
agent and every well-formed tuple the call raises, leaving the registry as
it was. -/
theorem C1_update_always_raises (sys : AISystem) (name : String) (p : AIPlayer)
    (state : GameState) (action : Action) (reward : ℚ) (next_state : GameState)
    (hp : sys.get_player name = some p) :
    (sys.update name state action reward next_state).1 = .error .notImplemented ∧
    (sys.update name state action reward next_state).2 = sys := by
  unfold AISystem.update
  rw [hp]
  exact ⟨by rfl, by rfl⟩

/-- Witness for C1 at the heuristic player "h" of `sysH`. -/
theorem C1_update_always_raises_witness :
    (sysH.update "h" demoState demoAction 0 demoState).1 = .error .notImplemented ∧
    (sysH.update "h" demoState demoAction 0 demoState).2 = sysH :=
  C1_update_always_raises sysH "h" (.heuristic (HeuristicAIPlayer.create 1 (some "h")))
    demoState demoAction 0 demoState rfl

/-- C2: the claim says save-then-load round-trips decision behaviour.  In
the code `AIPlayer.save` and `AIPlayer.load` both raise
`NotImplementedError` (no subclass overrides them), so `save_player` fails
for every registered agent and `load_player` fails for every existing,
recognizable path; the round trip can never even start. -/
theorem C2_save_load_never_succeed (sys : AISystem) (name : String) (p : AIPlayer)
    (path? : Option String) (fs : List String) (path : String)
    (hp : sys.get_player name = some p)
    (hfs : fs.contains path = true)
    (hsub : strContains path "heuristic" = true) :
    sys.save_player name path? = .error .notImplemented ∧
    (AISystem.load_player fs sys name (some path)).1 = .error .notImplemented ∧
    (AISystem.load_player fs sys name (some path)).2 = sys := by
  refine ⟨?_, ?_, ?_⟩
  · unfold AISystem.save_player
    rw [hp]
    rfl
  · unfold AISystem.load_player playerFromPath
    rw [show resolvePath name (some path) = path from rfl, hfs, hsub]
    rfl
  · unfold AISystem.load_player playerFromPath
    rw [show resolvePath name (some path) = path from rfl, hfs, hsub]
    rfl

/-- Witness for C2 at the heuristic player "h" of `sysH` and an existing
"heuristic"-named file. -/
theorem C2_save_load_never_succeed_witness :
    sysH.save_player "h" none = .error .notImplemented ∧
    (AISystem.load_player fs10 sysH "h" (some "models/rl_heuristic.pt")).1 = .error .notImplemented ∧
    (AISystem.load_player fs10 sysH "h" (some "models/rl_heuristic.pt")).2 = sysH :=
  C2_save_load_never_succeed sysH "h" (.heuristic (HeuristicAIPlayer.create 1 (some "h")))
    none fs10 "models/rl_heuristic.pt" rfl rfl rfl

/-- C3: the claim says a fresh RL agent's exploration rate starts at 1.0
with decay factor 0.995 (true in the code) and then strictly decreases
along decide/learn steps toward the floor 0.1.  The code never applies the
decay: `get_action` and `update` raise `NotImplementedError` before
touching any state (`EPSILON_DECAY` and `EPSILON_END` are never read), so
the exploration rate stays at 1.0 forever and in particular never strictly
decreases toward the floor. -/
theorem C3_epsilon_never_decays (d : Int) (n : Option String) (sys : AISystem)
    (name : String) (q : ReinforcementLearningAIPlayer) (state : GameState)
    (action : Action) (reward : ℚ) (next_state : GameState)
    (hq : sys.get_player name = some (.rl q)) :
    (ReinforcementLearningAIPlayer.create d n).epsilon = EPSILON_START ∧
    (ReinforcementLearningAIPlayer.create d n).epsilon_decay = EPSILON_DECAY ∧
    sys.get_action name state = .error .notImplemented ∧
    (sys.update name state action reward next_state).1 = .error .notImplemented ∧
    (sys.update name state action reward next_state).2 = sys := by
  refine ⟨rfl, rfl, ?_, ?_, ?_⟩
  · unfold AISystem.get_action
    rw [hq]
    rfl
  · unfold AISystem.update
    rw [hq]
    rfl
  · unfold AISystem.update
    rw [hq]
    rfl


/-- Witness for C3 at the RL player "r" of `sysAll`. -/
theorem C3_epsilon_never_decays_witness :
    (ReinforcementLearningAIPlayer.create 2 (some "r")).epsilon = EPSILON_START ∧
    (ReinforcementLearningAIPlayer.create 2 (some "r")).epsilon_decay = EPSILON_DECAY ∧
    sysAll.get_action "r" demoState = .error .notImplemented ∧
    (sysAll.update "r" demoState demoAction 0 demoState).1 = .error .notImplemented ∧
    (sysAll.update "r" demoState demoAction 0 demoState).2 = sysAll :=
  C3_epsilon_never_decays 2 (some "r") sysAll "r"
    (ReinforcementLearningAIPlayer.create 2 (some "r")) demoState demoAction 0 demoState rfl

/-- C4: the claim describes a bounded FIFO replay buffer of capacity
`MEMORY_CAPACITY`.  The code declares `memory = []` (a plain unbounded
list) in both learning constructors, never inserts into it — the only
recording path, `update`, raises `NotImplementedError` and leaves the
registry unchanged — and never reads `MEMORY_CAPACITY`; no eviction logic
exists anywhere. -/
theorem C4_replay_memory_never_filled (d : Int) (n : Option String) (sys : AISystem)
    (name : String) (q : NeuralNetAIPlayer) (state : GameState)
    (action : Action) (reward : ℚ) (next_state : GameState)
    (hq : sys.get_player name = some (.neural_net q)) :
    (NeuralNetAIPlayer.create d n).memory = [] ∧
    (ReinforcementLearningAIPlayer.create d n).memory = [] ∧
    MEMORY_CAPACITY = 10000 ∧
    (sys.update name state action reward next_state).1 = .error .notImplemented ∧
    (sys.update name state action reward next_state).2 = sys := by
  refine ⟨rfl, rfl, rfl, ?_, ?_⟩
  · unfold AISystem.update
    rw [hq]
    rfl
  · unfold AISystem.update
    rw [hq]
    rfl

/-- Witness for C4 at the neural-net player "n" of `sysAll`. -/
theorem C4_replay_memory_never_filled_witness :
    (NeuralNetAIPlayer.create 1 (some "n")).memory = [] ∧
    (ReinforcementLearningAIPlayer.create 1 (some "n")).memory = [] ∧
    MEMORY_CAPACITY = 10000 ∧
    (sysAll.update "n" demoState demoAction 0 demoState).1 = .error .notImplemented ∧
    (sysAll.update "n" demoState demoAction 0 demoState).2 = sysAll :=
  C4_replay_memory_never_filled 1 (some "n") sysAll "n"
    (NeuralNetAIPlayer.create 1 (some "n")) demoState demoAction 0 demoState rfl

/-- C5: heuristic construction yields exactly the documented weight table
for each of the four difficulty tiers (1, 2, 3, anything else), depends
only on the difficulty, and the constructor's output is a fixed pure
function of its arguments. -/
theorem C5_heuristic_weights_table (d : Int) (n n' : Option String)
    (h1 : d ≠ 1) (h2 : d ≠ 2) (h3 : d ≠ 3) :
    (HeuristicAIPlayer.create d n).decision_weights = get_weights_for_difficulty d ∧
    get_weights_for_difficulty 1 =
      [("holes", 0.3), ("bumpiness", 0.2), ("height", 0.3),
       ("lines_cleared", 0.8), ("tower_stability", 0.4), ("risk_taking", 0.2)] ∧
    get_weights_for_difficulty 2 =
      [("holes", 0.5), ("bumpiness", 0.4), ("height", 0.5),
       ("lines_cleared", 1.0), ("tower_stability", 0.6), ("risk_taking", 0.4)] ∧
    get_weights_for_difficulty 3 =
      [("holes", 0.7), ("bumpiness", 0.6), ("height", 0.7),
       ("lines_cleared", 1.2), ("tower_stability", 0.8), ("risk_taking", 0.6)] ∧
    get_weights_for_difficulty d =
      [("holes", 0.9), ("bumpiness", 0.8), ("height", 0.9),
       ("lines_cleared", 1.5), ("tower_stability", 1.0), ("risk_taking", 0.8)] ∧
    (HeuristicAIPlayer.create d n').decision_weights =
      (HeuristicAIPlayer.create d n).decision_weights := by
  refine ⟨rfl, rfl, rfl, rfl, ?_, rfl⟩
  simp [get_weights_for_difficulty, h1, h2, h3]

/-- Witness for C5 at the EXPERT tier (difficulty 7 is none of 1, 2, 3). -/
theorem C5_heuristic_weights_table_witness :
    (HeuristicAIPlayer.create 7 (some "x")).decision_weights = get_weights_for_difficulty 7 ∧
    get_weights_for_difficulty 1 =
      [("holes", 0.3), ("bumpiness", 0.2), ("height", 0.3),
       ("lines_cleared", 0.8), ("tower_stability", 0.4), ("risk_taking", 0.2)] ∧
    get_weights_for_difficulty 2 =
      [("holes", 0.5), ("bumpiness", 0.4), ("height", 0.5),
       ("lines_cleared", 1.0), ("tower_stability", 0.6), ("risk_taking", 0.4)] ∧
    get_weights_for_difficulty 3 =
      [("holes", 0.7), ("bumpiness", 0.6), ("height", 0.7),
       ("lines_cleared", 1.2), ("tower_stability", 0.8), ("risk_taking", 0.6)] ∧
    get_weights_for_difficulty 7 =
      [("holes", 0.9), ("bumpiness", 0.8), ("height", 0.9),
       ("lines_cleared", 1.5), ("tower_stability", 1.0), ("risk_taking", 0.8)] ∧
    (HeuristicAIPlayer.create 7 none).decision_weights =
      (HeuristicAIPlayer.create 7 (some "x")).decision_weights :=
  C5_heuristic_weights_table 7 (some "x") none (by decide) (by decide) (by decide)

/-- C6: `train_player` on a registered heuristic agent fails with the
unsupported-operation error whatever the accumulated training data holds,
and on a registered learning-variant agent with empty accumulated data it
fails with the no-training-data error; the two errors are distinct values
and both failures leave the registry untouched. -/
theorem C6_train_preconditions (sysA sysB : AISystem) (nameH nameL : String)
    (h : HeuristicAIPlayer) (p : AIPlayer) (e1 b1 e2 b2 : Nat)
    (hH : sysA.get_player nameH = some (.heuristic h))
    (hL : sysB.get_player nameL = some p)
    (hTr : p.isTrainable = true)
    (hEmpty : sysB.training_data.isEmpty = true) :
    (sysA.train_player nameH e1 b1).1 = .error .unsupportedTraining ∧
    (sysA.train_player nameH e1 b1).2 = sysA ∧
    (sysB.train_player nameL e2 b2).1 = .error .noTrainingData ∧
    (sysB.train_player nameL e2 b2).2 = sysB ∧
    AIError.unsupportedTraining ≠ AIError.noTrainingData := by
  refine ⟨?_, ?_, ?_, ?_, by decide⟩
  · unfold AISystem.train_player
    rw [hH]
    rfl
  · unfold AISystem.train_player
    rw [hH]
    rfl
  · unfold AISystem.train_player
    rw [hL]
    simp only [hTr, hEmpty]
  · unfold AISystem.train_player
    rw [hL]
    simp only [hTr, hEmpty]

/-- Witness for C6: heuristic "h" and RL "r" in `sysAll` (whose training
data is empty), and heuristic "h" in `sysTrain` (non-empty data). -/
theorem C6_train_preconditions_witness :
    (sysTrain.train_player "h" 3 32).1 = .error .unsupportedTraining ∧
    (sysTrain.train_player "h" 3 32).2 = sysTrain ∧
    (sysAll.train_player "r" 5 16).1 = .error .noTrainingData ∧
    (sysAll.train_player "r" 5 16).2 = sysAll ∧
    AIError.unsupportedTraining ≠ AIError.noTrainingData :=
  C6_train_preconditions sysTrain sysAll "h" "r"
    (HeuristicAIPlayer.create 1 (some "h"))
    (.rl (ReinforcementLearningAIPlayer.create 2 (some "r")))
    3 32 5 16 rfl rfl rfl rfl

/-- C7: for an unregistered name, `get_action` and `update` fail with the
not-found error (carrying that name) and the registry is unchanged; for an
unrecognized kind string, `create_player` fails with the unknown-kind error
and the registry is unchanged. -/
theorem C7_registry_missing_and_bad_kind (sys : AISystem) (name : String)
    (state : GameState) (action : Action) (reward : ℚ) (next_state : GameState)
    (t : String) (d : Int) (nm : Option String)
    (hmiss : sys.get_player name = none)
    (ht1 : t ≠ "heuristic") (ht2 : t ≠ "neural_net") (ht3 : t ≠ "rl") :
    sys.get_action name state = .error (.notFound name) ∧
    (sys.update name state action reward next_state).1 = .error (.notFound name) ∧
    (sys.update name state action reward next_state).2 = sys ∧
    (sys.create_player t d nm).1 = .error (.unknownPlayerType t) ∧
    (sys.create_player t d nm).2 = sys := by
  refine ⟨?_, ?_, ?_, ?_, ?_⟩
  · unfold AISystem.get_action
    rw [hmiss]
  · unfold AISystem.update
    rw [hmiss]
  · unfold AISystem.update
    rw [hmiss]
  · simp only [AISystem.create_player, if_neg ht1, if_neg ht2, if_neg ht3]
  · simp only [AISystem.create_player, if_neg ht1, if_neg ht2, if_neg ht3]

/-- Witness for C7 at the empty registry, name "missing" and kind
"bogus-kind". -/
theorem C7_registry_missing_and_bad_kind_witness :
    AISystem.init.get_action "missing" demoState = .error (.notFound "missing") ∧
    (AISystem.init.update "missing" demoState demoAction 0 demoState).1 =
      .error (.notFound "missing") ∧
    (AISystem.init.update "missing" demoState demoAction 0 demoState).2 = AISystem.init ∧
    (AISystem.init.create_player "bogus-kind" 1 none).1 =
      .error (.unknownPlayerType "bogus-kind") ∧
    (AISystem.init.create_player "bogus-kind" 1 none).2 = AISystem.init :=
  C7_registry_missing_and_bad_kind AISystem.init "missing" demoState demoAction 0 demoState
    "bogus-kind" 1 none rfl (by decide) (by decide) (by decide)

/-- C8: on a registered learning-variant agent with non-empty accumulated
training data, `train_player` succeeds, leaves the training data unchanged,
replaces the agent by one whose online model alone was rewritten by the
gradient loop — exploration rate, decay factor, step counter, replay
memory and target model are untouched — and leaves every other registry
entry unchanged. -/
theorem C8_train_frame (sys : AISystem) (name : String) (p : AIPlayer)
    (epochs batch_size : Nat) (k : Option String)
    (hp : sys.get_player name = some p)
    (ht : p.isTrainable = true)
    (hd : sys.training_data.isEmpty = false)
    (hk : k ≠ some name) :
    (sys.train_player name epochs batch_size).1 = .ok () ∧
    (sys.train_player name epochs batch_size).2.training_data = sys.training_data ∧
    (sys.train_player name epochs batch_size).2.get_player name =
      some (p.withTrainedModel sys.training_data epochs batch_size) ∧
    (p.withTrainedModel sys.training_data epochs batch_size).epsilonOf = p.epsilonOf ∧
    (p.withTrainedModel sys.training_data epochs batch_size).epsilonDecayOf = p.epsilonDecayOf ∧
    (p.withTrainedModel sys.training_data epochs batch_size).stepsOf = p.stepsOf ∧
    (p.withTrainedModel sys.training_data epochs batch_size).memoryOf = p.memoryOf ∧
    (p.withTrainedModel sys.training_data epochs batch_size).targetModelOf = p.targetModelOf ∧
    dictGet (sys.train_player name epochs batch_size).2.players k = dictGet sys.players k := by
  have htp : sys.train_player name epochs batch_size =
      (.ok (), { sys with players := dictSet sys.players (some name) (p.withTrainedModel sys.training_data epochs batch_size) }) := by
    unfold AISystem.train_player
    rw [hp]
    simp only [ht, hd]
  refine ⟨?_, ?_, ?_, ?_, ?_, ?_, ?_, ?_, ?_⟩
  · rw [htp]
  · rw [htp]
  · rw [htp]
    exact dictGet_dictSet_self sys.players (some name) _
  · cases p <;> rfl
  · cases p <;> rfl
  · cases p <;> rfl
  · cases p <;> rfl
  · cases p <;> rfl
  · rw [htp]
    exact dictGet_dictSet_ne sys.players (some name) k _ hk

/-- Witness for C8 at the RL player "r" of `sysTrain`, checking the frame
against the unrelated key "h". -/
theorem C8_train_frame_witness :
    (sysTrain.train_player "r" 2 32).1 = .ok () ∧
    (sysTrain.train_player "r" 2 32).2.training_data = sysTrain.training_data ∧
    (sysTrain.train_player "r" 2 32).2.get_player "r" =
      some ((AIPlayer.rl (ReinforcementLearningAIPlayer.create 2 (some "r"))).withTrainedModel
        sysTrain.training_data 2 32) ∧
    ((AIPlayer.rl (ReinforcementLearningAIPlayer.create 2 (some "r"))).withTrainedModel
      sysTrain.training_data 2 32).epsilonOf =
      (AIPlayer.rl (ReinforcementLearningAIPlayer.create 2 (some "r"))).epsilonOf ∧
    ((AIPlayer.rl (ReinforcementLearningAIPlayer.create 2 (some "r"))).withTrainedModel
      sysTrain.training_data 2 32).epsilonDecayOf =
      (AIPlayer.rl (ReinforcementLearningAIPlayer.create 2 (some "r"))).epsilonDecayOf ∧
    ((AIPlayer.rl (ReinforcementLearningAIPlayer.create 2 (some "r"))).withTrainedModel
      sysTrain.training_data 2 32).stepsOf =
      (AIPlayer.rl (ReinforcementLearningAIPlayer.create 2 (some "r"))).stepsOf ∧
    ((AIPlayer.rl (ReinforcementLearningAIPlayer.create 2 (some "r"))).withTrainedModel
      sysTrain.training_data 2 32).memoryOf =
      (AIPlayer.rl (ReinforcementLearningAIPlayer.create 2 (some "r"))).memoryOf ∧
    ((AIPlayer.rl (ReinforcementLearningAIPlayer.create 2 (some "r"))).withTrainedModel
      sysTrain.training_data 2 32).targetModelOf =
      (AIPlayer.rl (ReinforcementLearningAIPlayer.create 2 (some "r"))).targetModelOf ∧
    dictGet (sysTrain.train_player "r" 2 32).2.players (some "h") =
      dictGet sysTrain.players (some "h") :=
  C8_train_frame sysTrain "r" (.rl (ReinforcementLearningAIPlayer.create 2 (some "r")))
    2 32 (some "h") rfl rfl rfl (by decide)

/-- C9: the claim says `evaluate_player` returns 0.0 on an empty test set
(true in the code) and the matched-reward average on a non-empty one.  The
second half is unreachable: the loop's first call to the player's
`get_action` raises `NotImplementedError` (no variant implements it), so
every non-empty test set makes the call fail instead of returning the
average. -/
theorem C9_evaluate_empty_only (sys : AISystem) (name : String) (p : AIPlayer)
    (entry : GameState × Action × ℚ) (rest : List (GameState × Action × ℚ))
    (hp : sys.get_player name = some p) :
    sys.evaluate_player name [] = .ok 0 ∧
    sys.evaluate_player name (entry :: rest) = .error .notImplemented := by
  obtain ⟨s, a, r⟩ := entry
  constructor
  · unfold AISystem.evaluate_player
    rw [hp]
    rfl
  · unfold AISystem.evaluate_player
    rw [hp]
    rfl

/-- Witness for C9 at the heuristic player "h" of `sysH` and a one-entry
test set. -/
theorem C9_evaluate_empty_only_witness :
    sysH.evaluate_player "h" [] = .ok 0 ∧
    sysH.evaluate_player "h" [(demoState, demoAction, 1)] = .error .notImplemented :=
  C9_evaluate_empty_only sysH "h" (.heuristic (HeuristicAIPlayer.create 1 (some "h")))
    (demoState, demoAction, 1) [] rfl

/-- C10 counterexample: the path "models/rl_heuristic.pt" exists and
contains "heuristic", yet `load_player` does not load a heuristic agent —
it fails with `NotImplementedError` (from the stub `AIPlayer.load`) and the
name "p" stays unregistered, refuting "a path containing 'heuristic' is
always loaded as a Heuristic agent". -/
theorem C10_not_loaded_counterexample :
    (AISystem.load_player fs10 AISystem.init "p" (some "models/rl_heuristic.pt")).1 =
      .error .notImplemented ∧
    (AISystem.load_player fs10 AISystem.init "p" (some "models/rl_heuristic.pt")).2.get_player
      "p" = none :=
  ⟨rfl, rfl⟩

/-- C10 (amended): `load_player` determines the variant from substrings of
the resolved path in the order "heuristic", "neural_net", "rl"; a default
path containing none of them makes the call fail (with the
could-not-determine-type error) even though the file exists; a path
containing "heuristic" always dispatches to the Heuristic variant (a fresh
`HeuristicAIPlayer` is constructed and its `load` attempted) regardless of
which variant produced the blob — but that `load` itself raises
`NotImplementedError`, so the call fails and the registry is unchanged. -/
theorem C10_load_dispatch (fs : List String) (sys : AISystem) (name : String) (path : String)
    (hn1 : strContains (MODEL_SAVE_PATH ++ name ++ ".pt") "heuristic" = false)
    (hn2 : strContains (MODEL_SAVE_PATH ++ name ++ ".pt") "neural_net" = false)
    (hn3 : strContains (MODEL_SAVE_PATH ++ name ++ ".pt") "rl" = false)
    (hdef : fs.contains (MODEL_SAVE_PATH ++ name ++ ".pt") = true)
    (hfs : fs.contains path = true)
    (hsub : strContains path "heuristic" = true) :
    (AISystem.load_player fs sys name none).1 =
      .error (.unknownPathType (MODEL_SAVE_PATH ++ name ++ ".pt")) ∧
    (AISystem.load_player fs sys name none).2 = sys ∧
    playerFromPath path name = .ok (.heuristic (HeuristicAIPlayer.create 1 (some name))) ∧
    (AISystem.load_player fs sys name (some path)).1 = .error .notImplemented ∧
    (AISystem.load_player fs sys name (some path)).2 = sys := by
  refine ⟨?_, ?_, ?_, ?_, ?_⟩
  · unfold AISystem.load_player playerFromPath
    rw [show resolvePath name none = MODEL_SAVE_PATH ++ name ++ ".pt" from rfl, hdef, hn1, hn2, hn3]
  · unfold AISystem.load_player playerFromPath
    rw [show resolvePath name none = MODEL_SAVE_PATH ++ name ++ ".pt" from rfl, hdef, hn1, hn2, hn3]
  · unfold playerFromPath
    rw [hsub]
  · unfold AISystem.load_player playerFromPath
    rw [show resolvePath name (some path) = path from rfl, hfs, hsub]
    rfl
  · unfold AISystem.load_player playerFromPath
    rw [show resolvePath name (some path) = path from rfl, hfs, hsub]
    rfl

/-- Witness for C10 (amended) at name "agentx" (default path
"models/agentx.pt" contains none of the three substrings) and the existing
path "models/rl_heuristic.pt", which mentions both "rl" and "heuristic"
and is dispatched as heuristic. -/
theorem C10_load_dispatch_witness :
    (AISystem.load_player fsX AISystem.init "agentx" none).1 =
      .error (.unknownPathType (MODEL_SAVE_PATH ++ "agentx" ++ ".pt")) ∧
    (AISystem.load_player fsX AISystem.init "agentx" none).2 = AISystem.init ∧
    playerFromPath "models/rl_heuristic.pt" "agentx" =
      .ok (.heuristic (HeuristicAIPlayer.create 1 (some "agentx"))) ∧
    (AISystem.load_player fsX AISystem.init "agentx" (some "models/rl_heuristic.pt")).1 =
      .error .notImplemented ∧
    (AISystem.load_player fsX AISystem.init "agentx" (some "models/rl_heuristic.pt")).2 =
      AISystem.init :=
  C10_load_dispatch fsX AISystem.init "agentx" "models/rl_heuristic.pt"
    rfl rfl rfl rfl rfl rfl

end SuperTetris
